import Mathlib

/-!
Verification development for a userspace TCP (IPv4) endpoint.

Shallow embedding of the per-connection TCP protocol engine
(`src/tcp/connection.rs`) and the stream API (`src/lib.rs`).

Modelling conventions:
* 32-bit machine integers are `Nat` with explicit reduction modulo `2^32`
  (`wadd`, `wsub`); `u16` window fields are plain `Nat` (always < 2^16 at use).
* Wall-clock instants and the smoothed RTT (`f64` in the source) are `ℚ`;
  the arithmetic the claims exercise (`0.8·srtt + 0.2·rtt`, `1.5·srtt`,
  one-second thresholds) is exact at every input we evaluate.
* `VecDeque<u8>` byte queues are `List Nat`; the `BTreeMap<u32, Instant>`
  send-time map is a key-sorted association list `List (Nat × ℚ)`.
* Fallible paths return `Option`: `none` models a Rust panic
  (`unimplemented!`, a failed `assert_eq!`, an out-of-range slice index,
  a debug-mode unsigned-subtraction overflow) or, for `accept`, the
  `UnexpectedSegment` error return.  Emitted frames are collected in a
  `List SegmentOut` instead of being handed to the TUN device.
-/

/-- `MTU = 1500` from `connection.rs`. -/
def MTU : Nat := 1500

/-- `TTL` is not observable in the model; `ISS = 0` from `connection.rs`. -/
def ISS : Nat := 0

/-- `WINDOW_SIZE = 10` from `connection.rs`. -/
def WINDOW_SIZE : Nat := 10

/-- `SEND_QUEUE_SIZE = 1024` from `lib.rs`. -/
def SEND_QUEUE_SIZE : Nat := 1024

/-- `u32::wrapping_add`: addition modulo `2^32`. -/
def wadd (a b : Nat) : Nat := (a + b) % 2^32

/-- `u32::wrapping_sub`: subtraction modulo `2^32`. -/
def wsub (a b : Nat) : Nat := (a % 2^32 + (2^32 - b % 2^32)) % 2^32

/-- `Connection::wrapping_lt`:
`lhs.wrapping_sub(rhs) > u32::max_value() >> 1`, i.e. `(lhs − rhs) mod 2^32 > 2^31 − 1`. -/
def wrapping_lt (lhs rhs : Nat) : Bool := decide (2^31 - 1 < wsub lhs rhs)

/-- `Connection::is_between_wrapped`: strict open interval in the circular space. -/
def is_between_wrapped (start x finish : Nat) : Bool :=
  wrapping_lt start x && wrapping_lt x finish

/-- Modelled from the spec: the `State` enum used by `connection.rs`
(the `state.rs` under `src/` is an older draft lacking these variants;
the spec names the machine `SYN-RECEIVED → ESTABLISHED → FIN-WAIT-1 →
FIN-WAIT-2 → TIME-WAIT`). -/
inductive State where
  | synReceived
  | established
  | finWait1
  | finWait2
  | timeWait
deriving DecidableEq, Repr

/-- Modelled from the spec: the `Available` bitset `{READ, WRITE}` returned
by `on_packet` (its declaration is in the missing draft of `state.rs`). -/
structure Available where
  read : Bool
  canWrite : Bool
deriving DecidableEq, Repr

/-- `SendSequenceSpace` from `sequence.rs` (all `u32`/`u16` fields as `Nat`). -/
structure SendSequenceSpace where
  iss : Nat
  una : Nat
  nxt : Nat
  wnd : Nat
  urgent : Nat
  wl1 : Nat
  wl2 : Nat
deriving DecidableEq, Repr

/-- `ReceiveSequenceSpace` from `sequence.rs`. -/
structure ReceiveSequenceSpace where
  irs : Nat
  nxt : Nat
  wnd : Nat
  urgent : Nat
deriving DecidableEq, Repr

/-- `Timers` from `connection.rs`: `send_times : BTreeMap<u32, Instant>`
modelled as a key-sorted association list, `srtt : f64` as `ℚ`. -/
structure Timers where
  send_times : List (Nat × ℚ)
  srtt : ℚ
deriving DecidableEq, Repr

/-- `Timers::new()`: empty map, `srtt = 60` seconds. -/
def Timers.new : Timers := { send_times := [], srtt := 60 }

/-- The fields of a parsed incoming TCP header the engine reads
(`TcpHeaderSlice` accessors used in `connection.rs`). -/
structure TcpSegIn where
  seq : Nat
  ackNum : Nat
  syn : Bool
  ack : Bool
  fin : Bool
  wnd : Nat
  urg : Nat
deriving DecidableEq, Repr

/-- One emitted TCP segment as observable on the wire: the header fields
`Connection::write` serializes plus its payload bytes. -/
structure SegmentOut where
  seq : Nat
  ack : Nat
  wnd : Nat
  syn : Bool
  fin : Bool
  ackFlag : Bool
  payload : List Nat
deriving DecidableEq, Repr

/-- `Connection` from `connection.rs`.  The cached TCP header template is
reduced to its observable mutable parts: the staged `syn`/`fin` flags, the
`ack` flag and the advertised window (seq/ack fields are overwritten by
every `write`, so they carry no state between calls). -/
structure Connection where
  state : State
  send : SendSequenceSpace
  receive : ReceiveSequenceSpace
  timers : Timers
  tcpSyn : Bool
  tcpFin : Bool
  tcpAck : Bool
  tcpWnd : Nat
  ingress : List Nat
  unacked : List Nat
  closed : Bool
  closed_at : Option Nat
deriving DecidableEq, Repr

/-- `BTreeMap::insert` on the sorted association list (replaces an equal key). -/
def insertTime (ts : List (Nat × ℚ)) (k : Nat) (v : ℚ) : List (Nat × ℚ) :=
  match ts with
  | [] => [(k, v)]
  | (k0, v0) :: rest =>
    if k < k0 then (k, v) :: (k0, v0) :: rest
    else if k = k0 then (k, v) :: rest
    else (k0, v0) :: insertTime rest k v

/-- `BTreeMap::range(lo..).next()`: first entry (in key order) with key ≥ `lo`. -/
def firstFrom (ts : List (Nat × ℚ)) (lo : Nat) : Option (Nat × ℚ) :=
  ts.find? (fun p => lo ≤ p.1)

/-- The `send_times.retain(..)` call in `on_packet`: drop every entry with
`is_between_wrapped una k ack`, folding the removed entries (in key order)
into the smoothed RTT `srtt := 0.8·srtt + 0.2·(now − sent)`. -/
def retainUpdateSrtt (ts : List (Nat × ℚ)) (una ack : Nat) (now srtt : ℚ) :
    List (Nat × ℚ) × ℚ :=
  match ts with
  | [] => ([], srtt)
  | (k, t) :: rest =>
    if is_between_wrapped una k ack then
      retainUpdateSrtt rest una ack now ((4/5) * srtt + (1/5) * (now - t))
    else
      let r := retainUpdateSrtt rest una ack now srtt
      ((k, t) :: r.1, r.2)

/-- `Connection::is_recv_closed`: only `TIME-WAIT` counts. -/
def Connection.is_recv_closed (c : Connection) : Bool :=
  match c.state with
  | .timeWait => true
  | _ => false

/-- `Connection::availability`: `READ` iff recv-closed or `ingress` nonempty;
`WRITE` is never signalled. -/
def Connection.availability (c : Connection) : Available :=
  { read := c.is_recv_closed || !c.ingress.isEmpty, canWrite := false }

/-- `Connection::write(nic, seq, limit)` (`connection.rs:153`): emit one
segment starting at `seq` with at most `limit` payload bytes taken from
`unacked` at offset `seq − send.una` (forced to `0` with `limit := 0` when
`seq = closed_at + 1`), capped by the `MTU − 40` header budget; advance
`send.nxt` when the segment consumed new sequence numbers; clear the staged
`syn`/`fin` flags; record the send instant.  `none` models the slice panic
`&t[(offset - skipped)..]` when the offset lies beyond the queue. -/
def Connection.writeSeg (c : Connection) (now : ℚ) (seq : Nat) (limit : Nat) :
    Option (Connection × SegmentOut) :=
  let offset0 := wsub seq c.send.una
  let ol : Nat × Nat :=
    match c.closed_at with
    | some ca => if seq = wadd ca 1 then (0, 0) else (offset0, limit)
    | none => (offset0, limit)
  if ol.1 ≤ c.unacked.length then
    let availData := (c.unacked.drop ol.1)
    let maxData := min ol.2 availData.length
    let payload := availData.take (min maxData (MTU - 40))
    let seg : SegmentOut :=
      { seq := seq, ack := c.receive.nxt, wnd := c.tcpWnd,
        syn := c.tcpSyn, fin := c.tcpFin, ackFlag := c.tcpAck, payload := payload }
    let ns0 := wadd seq payload.length
    let ns1 := if c.tcpSyn then wadd ns0 1 else ns0
    let ns2 := if c.tcpFin then wadd ns1 1 else ns1
    let nxt2 := if wrapping_lt c.send.nxt ns2 then ns2 else c.send.nxt
    some ({ c with
              send := { c.send with nxt := nxt2 },
              tcpSyn := false, tcpFin := false,
              timers := { c.timers with
                            send_times := insertTime c.timers.send_times seq now } },
          seg)
  else
    none

/-- `Connection::accept` (`connection.rs:80`): on a SYN, build the
`SYN-RECEIVED` connection with the initial sequence spaces and emit the
SYN+ACK via `write(send.nxt, 0)`.  `none` models the `UnexpectedSegment`
error return on a non-SYN first segment. -/
def Connection.accept (seg : TcpSegIn) (now : ℚ) : Option (Connection × SegmentOut) :=
  if !seg.syn then
    none
  else
    let receive : ReceiveSequenceSpace :=
      { irs := seg.seq, nxt := wadd seg.seq 1, wnd := seg.wnd, urgent := seg.urg }
    let send : SendSequenceSpace :=
      { iss := ISS, una := ISS, nxt := ISS, wnd := WINDOW_SIZE, urgent := 0,
        wl1 := seg.seq, wl2 := wadd ISS WINDOW_SIZE }
    let conn : Connection :=
      { state := .synReceived, send := send, receive := receive,
        timers := Timers.new,
        tcpSyn := true, tcpFin := false, tcpAck := true, tcpWnd := send.wnd,
        ingress := [], unacked := [], closed := false, closed_at := none }
    conn.writeSeg now conn.send.nxt 0

/-- The RFC 793 §3.3 segment-acceptability test at the top of
`Connection::on_packet` (`connection.rs:261`). -/
def segOkay (c : Connection) (seg : TcpSegIn) (data : List Nat) : Bool :=
  let slen := data.length + (if seg.syn then 1 else 0) + (if seg.fin then 1 else 0)
  let wend := wadd c.receive.nxt c.receive.wnd
  if slen = 0 then
    if c.receive.wnd = 0 then
      seg.seq == c.receive.nxt
    else
      is_between_wrapped (wsub c.receive.nxt 1) seg.seq wend
  else if c.receive.wnd = 0 then
    false
  else
    is_between_wrapped (wsub c.receive.nxt 1) seg.seq wend
      || is_between_wrapped (wsub c.receive.nxt 1) (wadd seg.seq (slen - 1)) wend

/-- Is the state one of `Established | FinWait1 | FinWait2` (the Rust
`if let` pattern used twice in `on_packet`). -/
def State.isEstF (s : State) : Bool :=
  match s with
  | .established | .finWait1 | .finWait2 => true
  | _ => false

/-- Step 3a of `Connection::on_packet` (`connection.rs:309-322`): in
`SYN-RECEIVED`, an acceptable ACK (`SND.UNA − 1 < SEG.ACK ≤ SND.NXT`)
promotes the connection to `ESTABLISHED`. -/
def Connection.ackSynReceived (c : Connection) (seg : TcpSegIn) : Connection :=
  match c.state with
  | .synReceived =>
    if is_between_wrapped (wsub c.send.una 1) seg.ackNum (wadd c.send.nxt 1) then
      { c with state := .established }
    else c
  | _ => c

/-- Step 3b of `Connection::on_packet` (`connection.rs:324-351`): in
`ESTABLISHED`/`FIN-WAIT-1`/`FIN-WAIT-2`, an acceptable ACK drains the
newly acknowledged prefix of `unacked` (accounting for the SYN when
`send.una` still equals `send.iss`), purges the matching `send_times`
entries into the SRTT estimate, and advances `send.una` to `SEG.ACK`. -/
def Connection.ackAdvance (c : Connection) (seg : TcpSegIn) (now : ℚ) : Connection :=
  if c.state.isEstF && is_between_wrapped c.send.una seg.ackNum (wadd c.send.nxt 1) then
    let c1 :=
      if c.unacked.isEmpty = false then
        let dataStart :=
          if c.send.una = c.send.iss then wadd c.send.una 1 else c.send.una
        let ackedEnd := min (wsub seg.ackNum dataStart) c.unacked.length
        let r := retainUpdateSrtt c.timers.send_times c.send.una seg.ackNum
                   now c.timers.srtt
        { c with unacked := c.unacked.drop ackedEnd,
                 timers := { send_times := r.1, srtt := r.2 } }
      else c
    { c1 with send := { c1.send with una := seg.ackNum } }
  else c

/-- Step 3c of `Connection::on_packet` (`connection.rs:353-360`): in
`FIN-WAIT-1`, once `send.una = closed_at + 1` the peer has acknowledged
our FIN, so move to `FIN-WAIT-2`. -/
def Connection.finWait1Check (c : Connection) : Connection :=
  match c.state, c.closed_at with
  | .finWait1, some ca =>
    if c.send.una = wadd ca 1 then { c with state := .finWait2 } else c
  | _, _ => c

/-- Step 4 of `Connection::on_packet` (`connection.rs:362-385`): nonempty
payload in `ESTABLISHED`/`FIN-WAIT-1`/`FIN-WAIT-2` is appended to `ingress`
from offset `receive.nxt − seg.seq` (clamped to 0 for a retransmitted FIN,
with an `assert_eq!` that panics otherwise), `receive.nxt` becomes
`seg.seq + data.len`, and a bare ACK is emitted. -/
def Connection.deliverData (c : Connection) (seg : TcpSegIn) (data : List Nat) (now : ℚ) :
    Option (Connection × List SegmentOut) :=
  if !data.isEmpty && c.state.isEstF then
    let dOff := wsub c.receive.nxt seg.seq
    if data.length < dOff && dOff ≠ data.length + 1 then
      none
    else
      let dOff2 := if data.length < dOff then 0 else dOff
      let c4 := { c with
                   ingress := c.ingress ++ data.drop dOff2,
                   receive := { c.receive with nxt := wadd seg.seq data.length } }
      match c4.writeSeg now c4.send.nxt 0 with
      | none => none
      | some (c5, sg) => some (c5, [sg])
  else some (c, [])

/-- Step 5 of `Connection::on_packet` (`connection.rs:387-398`): a FIN is
handled only in `FIN-WAIT-2` (`receive.nxt += 1`, ACK, `TIME-WAIT`); in
every other state the source hits `unimplemented!()` (modelled `none`). -/
def Connection.handleFin (c : Connection) (seg : TcpSegIn) (now : ℚ)
    (segs1 : List SegmentOut) : Option (Connection × List SegmentOut × Available) :=
  if seg.fin then
    match c.state with
    | .finWait2 =>
      let c7 := { c with receive := { c.receive with nxt := wadd c.receive.nxt 1 } }
      match c7.writeSeg now c7.send.nxt 0 with
      | none => none
      | some (c8, sg) =>
        let c9 := { c8 with state := .timeWait }
        some (c9, segs1 ++ [sg], c9.availability)
    | _ => none
  else
    some (c, segs1, c.availability)

/-- `Connection::on_packet` (`connection.rs:244`): acceptability test, then
ACK-less handling, then the ACK-processing, payload-delivery and FIN steps
in source order.  Returns the updated connection, the emitted segments in
order, and the `Available` set; `none` models a panic. -/
def Connection.on_packet (c : Connection) (seg : TcpSegIn) (data : List Nat) (now : ℚ) :
    Option (Connection × List SegmentOut × Available) :=
  if segOkay c seg data = false then
    match c.writeSeg now c.send.nxt 0 with
    | none => none
    | some (c1, sg) => some (c1, [sg], c1.availability)
  else if seg.ack = false then
    let c1 :=
      if seg.syn then
        { c with receive := { c.receive with nxt := wadd seg.seq 1 } }
      else c
    some (c1, [], c1.availability)
  else
    let c3 := ((c.ackSynReceived seg).ackAdvance seg now).finWait1Check
    match c3.deliverData seg data now with
    | none => none
    | some (c6, segs1) => c6.handleFin seg now segs1

/-- `Connection::on_timer` (`connection.rs:405`): idle in
`FIN-WAIT-2`/`TIME-WAIT`; otherwise compute the in-flight byte count
`(closed_at ?? send.nxt) − send.una` and the unsent count, retransmit from
`send.una` when the oldest outstanding send is older than
`max(1s, 1.5·srtt)` (restaging the FIN when the whole window is not
needed and `closed_at` is set), else transmit new data from `send.nxt`
(staging the FIN once when closing).  `none` models the debug-mode panic
of the `u32` subtractions `unacked.len − unacked_bytes` and
`send.wnd − unacked_bytes`, or a slice panic inside `write`. -/
def Connection.on_timer (c : Connection) (now : ℚ) :
    Option (Connection × List SegmentOut) :=
  match c.state with
  | .finWait2 | .timeWait => some (c, [])
  | _ =>
    let unackedB := wsub (c.closed_at.getD c.send.nxt) c.send.una
    let len32 := c.unacked.length % 2^32
    if len32 < unackedB then
      none
    else
      let unsent := len32 - unackedB
      let waitedFor := (firstFrom c.timers.send_times c.send.una).map (fun p => now - p.2)
      let shouldRetransmit :=
        match waitedFor with
        | some w => decide (1 < w) && decide ((3/2 : ℚ) * c.timers.srtt < w)
        | none => false
      if shouldRetransmit then
        let resend := min len32 c.send.wnd
        let c1 :=
          if resend < c.send.wnd && c.closed_at.isSome then
            { c with tcpFin := true, closed_at := some (wadd c.send.nxt len32) }
          else c
        match c1.writeSeg now c1.send.una resend with
        | none => none
        | some (c2, sg) => some (c2, [sg])
      else
        if unsent = 0 && !c.closed then
          some (c, [])
        else if c.send.wnd < unackedB then
          none
        else
          let allowed := c.send.wnd - unackedB
          if allowed = 0 then
            some (c, [])
          else
            let sendLen := min unsent allowed
            let c1 :=
              if sendLen < allowed && c.closed && c.closed_at.isNone then
                { c with tcpFin := true, closed_at := some (wadd c.send.nxt len32) }
              else c
            match c1.writeSeg now c1.send.nxt sendLen with
            | none => none
            | some (c2, sg) => some (c2, [sg])

/-- `Connection::close` (`connection.rs:524`): always sets `closed := true`;
`SYN-RECEIVED | ESTABLISHED → FIN-WAIT-1`; `FIN-WAIT-1 | FIN-WAIT-2` no-op;
any other state returns `NotConnected` (second component `false`). -/
def Connection.close (c : Connection) : Connection × Bool :=
  let c1 := { c with closed := true }
  match c1.state with
  | .synReceived | .established => ({ c1 with state := .finWait1 }, true)
  | .finWait1 | .finWait2 => (c1, true)
  | _ => (c1, false)

/-- The error kinds the stream API returns (`io::ErrorKind` values used). -/
inductive IoErr where
  | brokenPipe
  | wouldBlock
  | notConnected
deriving DecidableEq, Repr

/-- `<TcpStream as io::Write>::write` (`lib.rs:260`) on an existing
connection: `WouldBlock` when the retransmission queue already holds
`SEND_QUEUE_SIZE` bytes, else append `min(buf.len, SEND_QUEUE_SIZE − len)`
bytes and return the count. -/
def streamWrite (c : Connection) (buf : List Nat) : Except IoErr (Connection × Nat) :=
  if SEND_QUEUE_SIZE ≤ c.unacked.length then
    .error .wouldBlock
  else
    let nwrite := min buf.length (SEND_QUEUE_SIZE - c.unacked.length)
    .ok ({ c with unacked := c.unacked ++ buf.take nwrite }, nwrite)

/-- `slice::copy_from_slice`: panics (`none`) unless the two lengths agree,
else the destination takes the source's contents. -/
def copyFromSlice (dst src : List Nat) : Option (List Nat) :=
  if dst.length = src.length then some src else none

/-- The nonempty-`ingress` branch of `<TcpStream as io::Read>::read`
(`lib.rs:240`), given the `as_slices()` split `(head, tail)` of `ingress`
and the caller's buffer: both copies target the whole of `buf`
(`buf.copy_from_slice(..)`), then `nread` bytes are drained.  Returns the
buffer contents, the remaining ingress and the count; `none` models the
`copy_from_slice` length-mismatch panic. -/
def readIngress (head tail buf : List Nat) : Option (List Nat × List Nat × Nat) :=
  let hread := min buf.length head.length
  match copyFromSlice buf (head.take hread) with
  | none => none
  | some buf1 =>
    let nread := hread
    let tread := min (buf.length - nread) tail.length
    match copyFromSlice buf1 (tail.take tread) with
    | none => none
    | some buf2 =>
      let n := nread + tread
      some (buf2, (head ++ tail).drop n, n)

/-- The `Shutdown` direction argument of `TcpStream::shutdown`. -/
inductive ShutdownDir where
  | read
  | write
  | both
deriving DecidableEq, Repr

/-- `TcpStream::shutdown` (`lib.rs:303`): the source is a stub — it ignores
the direction, touches nothing and returns `Ok(())` (second component
`true` for success). -/
def streamShutdown (c : Connection) (_how : ShutdownDir) : Connection × Bool :=
  (c, true)

/-! ### Concrete inputs used by counterexamples and witnesses -/

/-- The SYN of the spec's handshake scenario: `SYN seq=1000 wnd=4096`. -/
def synSegC8 : TcpSegIn :=
  { seq := 1000, ackNum := 0, syn := true, ack := false, fin := false, wnd := 4096, urg := 0 }

/-- The handshake-completing `ACK seq=1001 ack=1`. -/
def ackSegC8 : TcpSegIn :=
  { seq := 1001, ackNum := 1, syn := false, ack := true, fin := false, wnd := 4096, urg := 0 }

/-- An `ESTABLISHED` connection as reached after the handshake plus delivery
of a two-byte payload (`send.una = send.nxt = 1`, `receive.nxt = 1003`). -/
def estConn : Connection :=
  { state := .established,
    send := { iss := 0, una := 1, nxt := 1, wnd := 10, urgent := 0, wl1 := 1000, wl2 := 10 },
    receive := { irs := 1000, nxt := 1003, wnd := 10, urgent := 0 },
    timers := { send_times := [], srtt := 60 },
    tcpSyn := false, tcpFin := false, tcpAck := true, tcpWnd := 10,
    ingress := [], unacked := [], closed := false, closed_at := none }

/-- The out-of-window probe of the spec's scenario C: `seq=2000`, one byte. -/
def segC7 : TcpSegIn :=
  { seq := 2000, ackNum := 1, syn := false, ack := true, fin := false, wnd := 4096, urg := 0 }

/-- An acceptable ACK-carrying FIN for `estConn` (`seq=1003 ack=1`). -/
def segC2 : TcpSegIn :=
  { seq := 1003, ackNum := 1, syn := false, ack := true, fin := true, wnd := 4096, urg := 0 }

/-- A `FIN-WAIT-1` connection whose FIN (sequence slot 1) is still
unacknowledged: `closed_at = 1`, `send.nxt = 2`, the FIN segment was sent
at instant 0, and no ACK has arrived. -/
def cexC1 : Connection :=
  { state := .finWait1,
    send := { iss := 0, una := 1, nxt := 2, wnd := 10, urgent := 0, wl1 := 1000, wl2 := 10 },
    receive := { irs := 1000, nxt := 1003, wnd := 4096, urgent := 0 },
    timers := { send_times := [(1, 0)], srtt := 60 },
    tcpSyn := false, tcpFin := false, tcpAck := true, tcpWnd := 10,
    ingress := [], unacked := [], closed := true, closed_at := some 1 }

/-- A `FIN-WAIT-2` connection (our FIN at slot 1 has been acknowledged:
`send.una = send.nxt = 2`). -/
def cexC9 : Connection :=
  { state := .finWait2,
    send := { iss := 0, una := 2, nxt := 2, wnd := 10, urgent := 0, wl1 := 1000, wl2 := 10 },
    receive := { irs := 1000, nxt := 1003, wnd := 4096, urgent := 0 },
    timers := { send_times := [], srtt := 60 },
    tcpSyn := false, tcpFin := false, tcpAck := true, tcpWnd := 10,
    ingress := [], unacked := [], closed := true, closed_at := some 1 }

/-- The peer's FIN for `cexC9`: `seq=1003 ack=2`, FIN+ACK, no payload. -/
def segC9 : TcpSegIn :=
  { seq := 1003, ackNum := 2, syn := false, ack := true, fin := true, wnd := 4096, urg := 0 }

/-- A connection whose retransmission queue already holds
`SEND_QUEUE_SIZE` bytes. -/
def fullConn : Connection :=
  { estConn with unacked := List.replicate SEND_QUEUE_SIZE 0 }

/-- The `SYN-RECEIVED` connection exactly as `accept` builds it from
`SYN seq=1000 wnd=4096` at instant 0: the SYN+ACK has consumed sequence
slot 0, so `send.una = 0`, `send.nxt = 1`, and `unacked` is empty. -/
def synRcvdConn : Connection :=
  { state := .synReceived,
    send := { iss := 0, una := 0, nxt := 1, wnd := 10, urgent := 0, wl1 := 1000, wl2 := 10 },
    receive := { irs := 1000, nxt := 1001, wnd := 4096, urgent := 0 },
    timers := { send_times := [(0, 0)], srtt := 60 },
    tcpSyn := false, tcpFin := false, tcpAck := true, tcpWnd := 10,
    ingress := [], unacked := [], closed := false, closed_at := none }

/-- An acceptable FIN+ACK for `synRcvdConn` whose acknowledgment number 5
is outside `(send.una − 1, send.nxt + 1)`, so the `SYN-RECEIVED`
promotion does not fire. -/
def segStaleFin : TcpSegIn :=
  { seq := 1001, ackNum := 5, syn := false, ack := true, fin := true, wnd := 4096, urg := 0 }

/-! ### Helper lemmas -/

/-- A segment that consumes no sequence numbers never advances `send.nxt`:
`wadd a 0` is never strictly later than `a` in the half-space order. -/
theorem wrapping_lt_wadd_zero (a : Nat) : wrapping_lt a (wadd a 0) = false := by
  have h : wsub a (wadd a 0) = 0 := by
    unfold wsub wadd
    omega
  unfold wrapping_lt
  rw [h]
  decide

/-- `Connection::write` never assigns `closed_at`. -/
theorem writeSeg_closedAt {c : Connection} {now : ℚ} {s l : Nat}
    {p : Connection × SegmentOut} (h : c.writeSeg now s l = some p) :
    p.1.closed_at = c.closed_at := by
  simp only [Connection.writeSeg] at h
  split at h
  · exact (congrArg (fun q : Connection × SegmentOut => q.1.closed_at)
      (Option.some.inj h)).symm.trans rfl
  · exact Option.noConfusion h

/-! ### Frame lemmas for the on_packet stages -/

/-- `close` never touches `closed_at`. -/
theorem close_closedAt (c : Connection) : ((Connection.close c).1).closed_at = c.closed_at := by
  unfold Connection.close
  dsimp only
  split <;> rfl

/-- Step 3a never touches `closed_at`. -/
theorem ackSynReceived_closedAt (c : Connection) (seg : TcpSegIn) :
    (c.ackSynReceived seg).closed_at = c.closed_at := by
  unfold Connection.ackSynReceived
  split <;> first | rfl | (split <;> rfl)

/-- Step 3b never touches `closed_at`. -/
theorem ackAdvance_closedAt (c : Connection) (seg : TcpSegIn) (now : ℚ) :
    (c.ackAdvance seg now).closed_at = c.closed_at := by
  unfold Connection.ackAdvance
  split
  · dsimp only
    split <;> rfl
  · rfl

/-- Step 3c never touches `closed_at`. -/
theorem finWait1Check_closedAt (c : Connection) :
    (c.finWait1Check).closed_at = c.closed_at := by
  unfold Connection.finWait1Check
  split <;> first | rfl | (split <;> rfl)

/-- Step 4 never touches `closed_at`. -/
theorem deliverData_closedAt {c : Connection} {seg : TcpSegIn} {data : List Nat} {now : ℚ}
    {p : Connection × List SegmentOut} (h : c.deliverData seg data now = some p) :
    p.1.closed_at = c.closed_at := by
  simp only [Connection.deliverData] at h
  split at h
  · split at h
    · exact Option.noConfusion h
    · split at h
      · exact Option.noConfusion h
      · rename_i heq
        cases Option.some.inj h
        exact (writeSeg_closedAt heq).trans rfl
  · cases Option.some.inj h
    rfl

/-- Step 5 never touches `closed_at`. -/
theorem handleFin_closedAt {c : Connection} {seg : TcpSegIn} {now : ℚ}
    {segs1 : List SegmentOut} {r : Connection × List SegmentOut × Available}
    (h : c.handleFin seg now segs1 = some r) :
    r.1.closed_at = c.closed_at := by
  simp only [Connection.handleFin] at h
  split at h
  · split at h
    · split at h
      · exact Option.noConfusion h
      · rename_i heq
        cases Option.some.inj h
        exact (writeSeg_closedAt heq).trans rfl
    all_goals exact Option.noConfusion h
  · cases Option.some.inj h
    rfl

/-- `on_packet` never touches `closed_at`. -/
theorem onPacket_closedAt {c : Connection} {seg : TcpSegIn} {data : List Nat} {now : ℚ}
    {r : Connection × List SegmentOut × Available}
    (h : c.on_packet seg data now = some r) :
    r.1.closed_at = c.closed_at := by
  simp only [Connection.on_packet] at h
  split at h
  · split at h
    · exact Option.noConfusion h
    · rename_i heq
      cases Option.some.inj h
      exact writeSeg_closedAt heq
  · split at h
    · split at h <;> (cases Option.some.inj h; rfl)
    · split at h
      · exact Option.noConfusion h
      · rename_i c6 segs1 heq
        have h6 : c6.closed_at = c.closed_at :=
          (deliverData_closedAt heq).trans
            ((finWait1Check_closedAt _).trans
              ((ackAdvance_closedAt _ _ _).trans (ackSynReceived_closedAt _ _)))
        exact (handleFin_closedAt h).trans h6

/-- Once `closed_at` is set, `on_timer` either keeps it or (in the
retransmission branch) replaces it with `send.nxt + unacked.len`. -/
theorem onTimer_closedAt {c : Connection} {now : ℚ} {ca : Nat}
    (hca : c.closed_at = some ca) {r : Connection × List SegmentOut}
    (h : c.on_timer now = some r) :
    r.1.closed_at = some ca ∨
      r.1.closed_at = some (wadd c.send.nxt (c.unacked.length % 2^32)) := by
  simp only [Connection.on_timer, hca, Option.getD_some, Option.isSome_some,
    Option.isNone_some, Bool.and_true, Bool.and_false] at h
  split at h
  case h_1 =>
    cases Option.some.inj h
    exact Or.inl hca
  case h_2 =>
    cases Option.some.inj h
    exact Or.inl hca
  case h_3 =>
    split at h
    · exact Option.noConfusion h
    · split at h
      · -- retransmit branch
        split at h
        · exact Option.noConfusion h
        · rename_i heq
          cases Option.some.inj h
          have hw := writeSeg_closedAt heq
          rw [hw]
          split
          · exact Or.inr rfl
          · exact Or.inl hca
      · -- transmit-new branch: the FIN staging needs `closed_at.is_none()`
        split at h
        · cases Option.some.inj h
          exact Or.inl hca
        · split at h
          · exact Option.noConfusion h
          · split at h
            · cases Option.some.inj h
              exact Or.inl hca
            · split at h
              · exact Option.noConfusion h
              · rename_i heq
                cases Option.some.inj h
                have hw := writeSeg_closedAt heq
                rw [hw]
                exact Or.inl (by simp [hca])

/-- `Connection::write` never changes the state tag. -/
theorem writeSeg_state {c : Connection} {now : ℚ} {s l : Nat}
    {p : Connection × SegmentOut} (h : c.writeSeg now s l = some p) :
    p.1.state = c.state := by
  simp only [Connection.writeSeg] at h
  split at h
  · exact (congrArg (fun q : Connection × SegmentOut => q.1.state)
      (Option.some.inj h)).symm.trans rfl
  · exact Option.noConfusion h

/-- `write(send.nxt, 0)` with no staged flags is the bare ACK
`(seq = send.nxt, ack = receive.nxt)`: no payload, no sequence-space
change, and exactly one new `send_times` entry at key `send.nxt`. -/
theorem writeSeg_zero (c : Connection) (now : ℚ)
    (hOff : wsub c.send.nxt c.send.una ≤ c.unacked.length)
    (hSyn : c.tcpSyn = false) (hFin : c.tcpFin = false) :
    c.writeSeg now c.send.nxt 0 =
      some ({ c with
                tcpSyn := false, tcpFin := false,
                timers := { c.timers with
                              send_times := insertTime c.timers.send_times c.send.nxt now } },
            { seq := c.send.nxt, ack := c.receive.nxt, wnd := c.tcpWnd,
              syn := false, fin := false, ackFlag := c.tcpAck, payload := [] }) := by
  unfold Connection.writeSeg
  dsimp only
  rcases hc : c.closed_at with _ | ca
  · simp only [hc]
    rw [if_pos hOff]
    simp [hSyn, hFin, wrapping_lt_wadd_zero]
  · simp only [hc]
    by_cases hseq : c.send.nxt = wadd ca 1
    · rw [if_pos hseq]
      dsimp only
      rw [if_pos (Nat.zero_le _)]
      simp [hSyn, hFin, wrapping_lt_wadd_zero]
    · rw [if_neg hseq]
      rw [if_pos hOff]
      simp [hSyn, hFin, wrapping_lt_wadd_zero]

/-- `Connection::write` panics when the requested offset lies beyond the
retransmission queue and no FIN slot is recorded: the slice index
`&t[(offset - skipped)..]` is out of range. -/
theorem writeSeg_none (c : Connection) (now : ℚ) (seq l : Nat)
    (hca : c.closed_at = none)
    (hBad : c.unacked.length < wsub seq c.send.una) :
    c.writeSeg now seq l = none := by
  unfold Connection.writeSeg
  dsimp only
  simp only [hca]
  rw [if_neg (Nat.not_le.mpr hBad)]

/-- Step 3a is the identity outside `SYN-RECEIVED`. -/
theorem ackSynReceived_of_ne (c : Connection) (seg : TcpSegIn)
    (h : c.state ≠ .synReceived) : c.ackSynReceived seg = c := by
  unfold Connection.ackSynReceived
  split
  · rename_i heq
    exact absurd heq h
  · rfl

/-- Step 3b never changes the state tag. -/
theorem ackAdvance_state (c : Connection) (seg : TcpSegIn) (now : ℚ) :
    (c.ackAdvance seg now).state = c.state := by
  unfold Connection.ackAdvance
  split
  · dsimp only
    split <;> rfl
  · rfl

/-- Step 3b is the identity when the ACK is not acceptable. -/
theorem ackAdvance_of_not_between (c : Connection) (seg : TcpSegIn) (now : ℚ)
    (h : is_between_wrapped c.send.una seg.ackNum (wadd c.send.nxt 1) = false) :
    c.ackAdvance seg now = c := by
  unfold Connection.ackAdvance
  rw [h]
  simp

/-- Step 3c is the identity outside `FIN-WAIT-1`. -/
theorem finWait1Check_of_ne (c : Connection) (h : c.state ≠ .finWait1) :
    c.finWait1Check = c := by
  unfold Connection.finWait1Check
  split
  · rename_i ca h1 h2
    exact absurd h1 h
  · rfl

/-- Step 4 is a no-op on an empty payload. -/
theorem deliverData_nil (c : Connection) (seg : TcpSegIn) (now : ℚ) :
    c.deliverData seg [] now = some (c, []) := by
  unfold Connection.deliverData
  simp

/-- Step 4 never changes the state tag. -/
theorem deliverData_state {c : Connection} {seg : TcpSegIn} {data : List Nat} {now : ℚ}
    {p : Connection × List SegmentOut} (h : c.deliverData seg data now = some p) :
    p.1.state = c.state := by
  simp only [Connection.deliverData] at h
  split at h
  · split at h
    · exact Option.noConfusion h
    · split at h
      · exact Option.noConfusion h
      · rename_i heq
        cases Option.some.inj h
        exact (writeSeg_state heq).trans rfl
  · cases Option.some.inj h
    rfl

/-- Step 5 panics (`unimplemented!()`) on a FIN in every state other
than `FIN-WAIT-2`. -/
theorem handleFin_of_ne (c : Connection) (seg : TcpSegIn) (now : ℚ)
    (segs1 : List SegmentOut) (hFin : seg.fin = true) (hSt : c.state ≠ .finWait2) :
    c.handleFin seg now segs1 = none := by
  unfold Connection.handleFin
  rw [hFin]
  simp only [if_pos]

/-! ### Claim theorems -/

/-- Claim C3 (amended): `wrapping_lt a b` returns true exactly when
`(a − b) mod 2^32` is at least `2^31` — the source compares against
`u32::MAX >> 1 = 2^31 − 1` with strict `>`, so equality with `2^31`
yields `true`, not `false` as the claim states. -/
theorem c3_wrapping_lt_halfspace (a b : Nat) :
    wrapping_lt a b = decide (2^31 ≤ wsub a b) := by
  unfold wrapping_lt
  refine decide_eq_decide.mpr ?_
  have h : (2:Nat)^31 = 2147483648 := by norm_num
  omega

/-- Claim C3 counterexample: at `(a − b) mod 2^32 = 2^31` exactly
(`a = 2^31`, `b = 0`) the function returns `true`, while the claim's
condition `(a − b) mod 2^32 > 2^31` is false there. -/
theorem c3_wrapping_lt_counterexample :
    wrapping_lt (2^31) 0 = true ∧ wsub (2^31) 0 = 2^31 ∧ ¬ (2^31 < wsub (2^31) 0) := by
  refine ⟨by decide, by decide, by decide⟩

/-- Claim C4: the ingress copy in `TcpStream::read` is broken — both
`copy_from_slice` calls target the whole user buffer, so any read with a
nonempty buffer and nonempty ingress panics on a length mismatch
(here: ingress `"hi"` split `([104,105],[])` into a 4-byte buffer, and a
split `([104,105],[106])` into a 2-byte buffer). -/
theorem c4_read_copy_panics :
    readIngress [104, 105] [] [0, 0, 0, 0] = none ∧
    readIngress [104, 105] [106] [0, 0] = none := by
  exact ⟨rfl, rfl⟩

/-- Claim C5: `TcpStream::shutdown` is a stub that ignores its direction
and returns `Ok(())` without invoking `Connection::close`: after
`shutdown(Write)` on an `ESTABLISHED` connection the connection is
untouched (`closed = false`, state still `ESTABLISHED`), whereas
`Connection::close` would have set `closed := true` and state
`FIN-WAIT-1` as the claim demands. -/
theorem c5_shutdown_stub :
    streamShutdown estConn .write = (estConn, true) ∧
    (streamShutdown estConn .write).1.closed = false ∧
    (streamShutdown estConn .write).1.state = .established ∧
    (Connection.close estConn).1.closed = true ∧
    (Connection.close estConn).1.state = .finWait1 := by
  refine ⟨rfl, rfl, rfl, rfl, rfl⟩

/-- Claim C6: on the connection freshly built by `accept`
(`SYN seq=1000 wnd=4096`, so `SYN-RECEIVED` with `send.una = 0`,
`send.nxt = 1`, empty `unacked`), the on_timer quantity
`(closed_at ?? send.nxt) − send.una` equals `1` while `unacked.len = 0`,
so the `u32` subtraction `unacked.len − unacked_bytes` underflows and
`on_timer` panics (evaluated at `t = 1/2` s). -/
theorem c6_on_timer_underflow :
    (Connection.accept synSegC8 0).map (fun p =>
      (wsub (p.1.closed_at.getD p.1.send.nxt) p.1.send.una,
       p.1.unacked.length,
       Connection.on_timer p.1 (1/2))) = some (1, 0, none) := by
  decide

/-- Claim C8: the literal three-way handshake — `accept` on
`SYN seq=1000 wnd=4096` yields `SYN-RECEIVED` and emits
`SYN+ACK seq=0 ack=1001 wnd=10`; the subsequent `ACK seq=1001 ack=1`
drives `on_packet` to `ESTABLISHED` with `send.una = 1` and
`receive.nxt = 1001` (and emits nothing). -/
theorem c8_three_way_handshake :
    (Connection.accept synSegC8 0).map (fun p =>
      (p.1.state, p.2.seq, p.2.ack, p.2.wnd, p.2.syn, p.2.ackFlag)) =
      some (.synReceived, 0, 1001, 10, true, true) ∧
    ((Connection.accept synSegC8 0).bind (fun p =>
      (p.1.on_packet ackSegC8 [] 1).map (fun r =>
        (r.1.state, r.1.send.una, r.1.receive.nxt, r.2.1)))) =
      some (.established, 1, 1001, []) := by
  refine ⟨by decide, by decide⟩

/-- Claim C10: `TcpStream::write` on an existing connection fails with
`WouldBlock` when `unacked.len ≥ SEND_QUEUE_SIZE` (1024) leaving the
queue untouched, and otherwise appends exactly
`min(buf.len, SEND_QUEUE_SIZE − unacked.len)` bytes of `buf`, in order,
to the back of `unacked` and returns that count (never exceeding the
queue bound). -/
theorem c10_stream_write_bounds (c : Connection) (buf : List Nat) :
    (SEND_QUEUE_SIZE ≤ c.unacked.length →
      streamWrite c buf = .error .wouldBlock) ∧
    (c.unacked.length < SEND_QUEUE_SIZE →
      streamWrite c buf =
        .ok ({ c with unacked :=
                 c.unacked ++ buf.take (min buf.length (SEND_QUEUE_SIZE - c.unacked.length)) },
             min buf.length (SEND_QUEUE_SIZE - c.unacked.length)) ∧
      (c.unacked ++ buf.take (min buf.length (SEND_QUEUE_SIZE - c.unacked.length))).length =
        c.unacked.length + min buf.length (SEND_QUEUE_SIZE - c.unacked.length) ∧
      c.unacked.length + min buf.length (SEND_QUEUE_SIZE - c.unacked.length) ≤
        SEND_QUEUE_SIZE) := by
  constructor
  · intro h
    unfold streamWrite
    rw [if_pos h]
  · intro h
    unfold streamWrite
    rw [if_neg (Nat.not_le.mpr h)]
    refine ⟨rfl, ?_, ?_⟩
    · simp only [List.length_append, List.length_take]
      omega
    · omega

/-- Claim C10 witness: a full queue rejects with `WouldBlock`; an empty
queue accepts two bytes and appends them. -/
theorem c10_stream_write_bounds_witness :
    (SEND_QUEUE_SIZE ≤ fullConn.unacked.length ∧
      streamWrite fullConn [7] = .error .wouldBlock) ∧
    (estConn.unacked.length < SEND_QUEUE_SIZE ∧
      streamWrite estConn [9, 8] =
        .ok ({ estConn with unacked := estConn.unacked ++ [9, 8] }, 2)) := by
  have h1 : fullConn.unacked.length = SEND_QUEUE_SIZE := by
    show (List.replicate SEND_QUEUE_SIZE 0).length = SEND_QUEUE_SIZE
    exact List.length_replicate _ _
  have hfull : SEND_QUEUE_SIZE ≤ fullConn.unacked.length := h1.ge
  constructor
  · exact ⟨hfull, (c10_stream_write_bounds fullConn [7]).1 hfull⟩
  · refine ⟨by decide, ?_⟩
    exact ((c10_stream_write_bounds estConn [9, 8]).2 (by decide)).1

/-- Claim C7 (amended): a segment failing the acceptability test makes
`on_packet` attempt exactly one bare ACK `(seq = send.nxt,
ack = receive.nxt)` and nothing else.  When the ACK's queue offset is in
range (`send.nxt − send.una ≤ unacked.len`; transient header flags
clear), the ACK is emitted and the state, both sequence spaces,
`ingress`, `unacked`, `closed`, `closed_at` and `srtt` are unchanged —
but the emission records the send instant, so `timers.send_times` gains
an entry at key `send.nxt` (the claim's "timers (including sendTimes)
exactly as before" is false).  When the offset is out of range with no
FIN slot recorded (`unacked.len < send.nxt − send.una`,
`closed_at = None` — reachable in `SYN-RECEIVED` right after `accept`,
where the SYN holds a sequence slot but no queue byte), the emission
panics on an out-of-range slice and no ACK is sent at all. -/
theorem c7_unacceptable_segment :
    (∀ (c : Connection) (seg : TcpSegIn) (data : List Nat) (now : ℚ),
      segOkay c seg data = false →
      c.tcpSyn = false → c.tcpFin = false →
      wsub c.send.nxt c.send.una ≤ c.unacked.length →
      ∃ c2 sg av, c.on_packet seg data now = some (c2, [sg], av) ∧
        sg.seq = c.send.nxt ∧ sg.ack = c.receive.nxt ∧ sg.payload = [] ∧
        sg.syn = false ∧ sg.fin = false ∧
        c2.state = c.state ∧ c2.send = c.send ∧ c2.receive = c.receive ∧
        c2.ingress = c.ingress ∧ c2.unacked = c.unacked ∧
        c2.closed = c.closed ∧ c2.closed_at = c.closed_at ∧
        c2.timers.srtt = c.timers.srtt ∧
        c2.timers.send_times = insertTime c.timers.send_times c.send.nxt now) ∧
    (∀ (c : Connection) (seg : TcpSegIn) (data : List Nat) (now : ℚ),
      segOkay c seg data = false →
      c.closed_at = none →
      c.unacked.length < wsub c.send.nxt c.send.una →
      c.on_packet seg data now = none) := by
  constructor
  · intro c seg data now hOk hSyn hFin hOff
    unfold Connection.on_packet
    rw [if_pos hOk, writeSeg_zero c now hOff hSyn hFin]
    exact ⟨_, _, _, rfl, rfl, rfl, rfl, rfl, rfl, rfl, rfl, rfl, rfl, rfl, rfl, rfl, rfl, rfl⟩
  · intro c seg data now hOk hca hBad
    unfold Connection.on_packet
    rw [if_pos hOk, writeSeg_none c now c.send.nxt 0 hca hBad]

/-- Claim C7 counterexample: the out-of-window probe of spec scenario C
(`seq=2000`, one byte, against `receive.nxt=1003 wnd=10`) leaves
everything untouched and emits the bare ACK `seq=1 ack=1003`, but
`timers.send_times` goes from `[]` to `[(1, 7)]` — the claim's
"timers (including sendTimes) are all exactly as before" fails. -/
theorem c7_send_times_counterexample :
    segOkay estConn segC7 [120] = false ∧
    estConn.timers.send_times = [] ∧
    (estConn.on_packet segC7 [120] 7).map
      (fun r => (r.1.timers.send_times, r.2.1.map (fun s => (s.seq, s.ack, s.payload)))) =
      some ([(1, 7)], [(1, 1003, [])]) := by
  refine ⟨by decide, rfl, by decide⟩

/-- Claim C7 witness: both regimes at concrete inputs — the scenario-C
out-of-window probe against `estConn` (bare ACK emitted, `send_times`
updated), and a retransmitted SYN against the post-`accept`
`SYN-RECEIVED` connection (emission panics, `accept` shown to produce
exactly that connection). -/
theorem c7_unacceptable_segment_witness :
    (segOkay estConn segC7 [120] = false ∧
      (∃ c2 sg av, estConn.on_packet segC7 [120] 7 = some (c2, [sg], av) ∧
        sg.seq = estConn.send.nxt ∧ sg.ack = estConn.receive.nxt ∧ sg.payload = [] ∧
        sg.syn = false ∧ sg.fin = false ∧
        c2.state = estConn.state ∧ c2.send = estConn.send ∧ c2.receive = estConn.receive ∧
        c2.ingress = estConn.ingress ∧ c2.unacked = estConn.unacked ∧
        c2.closed = estConn.closed ∧ c2.closed_at = estConn.closed_at ∧
        c2.timers.srtt = estConn.timers.srtt ∧
        c2.timers.send_times = insertTime estConn.timers.send_times estConn.send.nxt 7)) ∧
    ((Connection.accept synSegC8 0).map Prod.fst = some synRcvdConn ∧
      segOkay synRcvdConn synSegC8 [] = false ∧
      synRcvdConn.unacked.length < wsub synRcvdConn.send.nxt synRcvdConn.send.una ∧
      Connection.on_packet synRcvdConn synSegC8 [] 9 = none) :=
  ⟨⟨by decide,
    c7_unacceptable_segment.1 estConn segC7 [120] 7 (by decide) rfl rfl (by decide)⟩,
   ⟨by decide, by decide, by decide,
    c7_unacceptable_segment.2 synRcvdConn synSegC8 [] 9 (by decide) rfl (by decide)⟩⟩

/-- Claim C9: an acceptable ACK-carrying FIN (no payload) in `FIN-WAIT-2`
makes `on_packet` increment `receive.nxt` by one, emit one ACK announcing
the incremented `receive.nxt`, transition to `TIME-WAIT`, and return an
`Available` set containing `READ` (the receive side is then closed).
The hypotheses pin the duplicate-ACK case (`SND.UNA < SEG.ACK ≤ SND.NXT`
failing, as after everything in flight is acknowledged), clear transient
header flags, and the bare-ACK emission being in range of the queue. -/
theorem c9_fin_wait2_to_time_wait (c : Connection) (seg : TcpSegIn) (now : ℚ)
    (hSt : c.state = .finWait2) (hAck : seg.ack = true) (hFin : seg.fin = true)
    (hOk : segOkay c seg [] = true)
    (hNoAdv : is_between_wrapped c.send.una seg.ackNum (wadd c.send.nxt 1) = false)
    (hSyn : c.tcpSyn = false) (hTFin : c.tcpFin = false)
    (hOff : wsub c.send.nxt c.send.una ≤ c.unacked.length) :
    ∃ c2 sg av, c.on_packet seg [] now = some (c2, [sg], av) ∧
      c2.state = .timeWait ∧ c2.receive.nxt = wadd c.receive.nxt 1 ∧
      sg.seq = c.send.nxt ∧ sg.ack = wadd c.receive.nxt 1 ∧ sg.payload = [] ∧
      av.read = true := by
  have hne : c.state ≠ .synReceived := by rw [hSt]; exact fun hh => State.noConfusion hh
  have hne2 : c.state ≠ .finWait1 := by rw [hSt]; exact fun hh => State.noConfusion hh
  unfold Connection.on_packet
  rw [if_neg (by simp [hOk]), if_neg (by simp [hAck])]
  rw [ackSynReceived_of_ne c seg hne, ackAdvance_of_not_between c seg now hNoAdv,
    finWait1Check_of_ne c hne2]
  dsimp only
  rw [deliverData_nil]
  dsimp only
  unfold Connection.handleFin
  rw [hFin]
  simp only [if_pos]
  rw [hSt]
  dsimp only
  rw [writeSeg_zero
      { c with state := .finWait2,
               receive := { c.receive with nxt := wadd c.receive.nxt 1 } }
      now hOff hSyn hTFin]
  exact ⟨_, _, _, rfl, rfl, rfl, rfl, rfl, rfl, rfl⟩

/-- Claim C9 witness: the concrete `FIN seq=1003 ack=2` against a
`FIN-WAIT-2` connection with `send.una = send.nxt = 2`, `receive.nxt = 1003`. -/
theorem c9_fin_wait2_to_time_wait_witness :
    segOkay cexC9 segC9 [] = true ∧
    is_between_wrapped cexC9.send.una segC9.ackNum (wadd cexC9.send.nxt 1) = false ∧
    (∃ c2 sg av, cexC9.on_packet segC9 [] 5 = some (c2, [sg], av) ∧
      c2.state = .timeWait ∧ c2.receive.nxt = wadd cexC9.receive.nxt 1 ∧
      sg.seq = cexC9.send.nxt ∧ sg.ack = wadd cexC9.receive.nxt 1 ∧ sg.payload = [] ∧
      av.read = true) :=
  ⟨by decide, by decide,
   c9_fin_wait2_to_time_wait cexC9 segC9 5 rfl rfl rfl (by decide) (by decide)
     rfl rfl (by decide)⟩

/-- Claim C2 (amended): an acceptable ACK-carrying segment with the FIN
flag set does not complete whenever the state after ACK processing
(`SYN-RECEIVED` promotion, ACK advance, `FIN-WAIT-1` check) is
`ESTABLISHED`, `SYN-RECEIVED`, or `FIN-WAIT-1`: the FIN step of
`on_packet` is implemented only for `FIN-WAIT-2`, and every other state
hits `unimplemented!()`, which panics and (the packet loop catching only
`Err` values, not panics) kills the packet-loop thread. -/
theorem c2_fin_unimplemented_panics (c : Connection) (seg : TcpSegIn) (data : List Nat)
    (now : ℚ) (hAck : seg.ack = true) (hFin : seg.fin = true)
    (hOk : segOkay c seg data = true)
    (hSt3 : (((c.ackSynReceived seg).ackAdvance seg now).finWait1Check).state = .established ∨
            (((c.ackSynReceived seg).ackAdvance seg now).finWait1Check).state = .synReceived ∨
            (((c.ackSynReceived seg).ackAdvance seg now).finWait1Check).state = .finWait1) :
    c.on_packet seg data now = none := by
  have hne : (((c.ackSynReceived seg).ackAdvance seg now).finWait1Check).state ≠ .finWait2 := by
    rcases hSt3 with h | h | h <;> rw [h] <;> exact fun hh => State.noConfusion hh
  unfold Connection.on_packet
  rw [if_neg (by simp [hOk]), if_neg (by simp [hAck])]
  dsimp only
  cases hd : (((c.ackSynReceived seg).ackAdvance seg now).finWait1Check).deliverData
      seg data now with
  | none => rfl
  | some p =>
    obtain ⟨c6, segs1⟩ := p
    exact handleFin_of_ne c6 seg now segs1 hFin (by rw [deliverData_state hd]; exact hne)

/-- Claim C2 counterexample: the acceptable FIN+ACK `seq=1003 ack=1`
against the established connection of spec scenario B panics `on_packet`
(modelled `none`) instead of returning `Ok`/a swallowed error. -/
theorem c2_fin_counterexample :
    segOkay estConn segC2 [] = true ∧
    Connection.on_packet estConn segC2 [] 7 = none := by
  refine ⟨by decide, by decide⟩

/-- Claim C2 witness: the amended statement applied in two of the named
states — in `ESTABLISHED` (FIN+ACK `seq=1003 ack=1` on `estConn`, whose
post-ACK state is `ESTABLISHED`), and in `SYN-RECEIVED` (an acceptable
FIN with a stale ACK on the post-`accept` connection, which the
SYN-RECEIVED promotion rejects, so the post-ACK state stays
`SYN-RECEIVED`). -/
theorem c2_fin_unimplemented_panics_witness :
    (segOkay estConn segC2 [] = true ∧
      (((estConn.ackSynReceived segC2).ackAdvance segC2 7).finWait1Check).state =
        .established ∧
      Connection.on_packet estConn segC2 [] 7 = none) ∧
    (segOkay synRcvdConn segStaleFin [] = true ∧
      (((synRcvdConn.ackSynReceived segStaleFin).ackAdvance segStaleFin 3).finWait1Check).state =
        .synReceived ∧
      Connection.on_packet synRcvdConn segStaleFin [] 3 = none) :=
  ⟨⟨by decide, by decide,
    c2_fin_unimplemented_panics estConn segC2 [] 7 rfl rfl (by decide)
      (Or.inl (by decide))⟩,
   ⟨by decide, by decide,
    c2_fin_unimplemented_panics synRcvdConn segStaleFin [] 3 rfl rfl (by decide)
      (Or.inr (Or.inl (by decide)))⟩⟩

/-- Claim C1 (amended): once `closed_at` is set it is never cleared, and
`close`, `write` and `on_packet` never change it — but `on_timer`'s
retransmission branch re-stages the FIN and *reassigns*
`closed_at := send.nxt + unacked.len`, which can differ from the stored
value once `send.nxt` has advanced past the FIN, so the claim's
"no subsequent on_timer call replaces it" is false. -/
theorem c1_closed_at_transitions :
    (∀ c : Connection, ((Connection.close c).1).closed_at = c.closed_at) ∧
    (∀ (c : Connection) (now : ℚ) (s l : Nat) (p : Connection × SegmentOut),
        c.writeSeg now s l = some p → p.1.closed_at = c.closed_at) ∧
    (∀ (c : Connection) (seg : TcpSegIn) (data : List Nat) (now : ℚ)
        (r : Connection × List SegmentOut × Available),
        c.on_packet seg data now = some r → r.1.closed_at = c.closed_at) ∧
    (∀ (c : Connection) (now : ℚ) (ca : Nat) (r : Connection × List SegmentOut),
        c.closed_at = some ca → c.on_timer now = some r →
        r.1.closed_at = some ca ∨
          r.1.closed_at = some (wadd c.send.nxt (c.unacked.length % 2^32))) :=
  ⟨close_closedAt,
   fun _ _ _ _ _ h => writeSeg_closedAt h,
   fun _ _ _ _ _ h => onPacket_closedAt h,
   fun _ _ _ _ hca h => onTimer_closedAt hca h⟩

/-- Claim C1 counterexample: a `FIN-WAIT-1` connection whose FIN occupies
sequence slot 1 (`closed_at = 1`, `send.nxt = 2`, empty queue, FIN sent at
instant 0 and unacknowledged): the `on_timer` tick at instant 100 takes
the retransmission branch and replaces `closed_at` with
`send.nxt + unacked.len = 2` — a different sequence number, so `closed_at`
is not stable across `on_timer`. -/
theorem c1_closed_at_counterexample :
    cexC1.closed_at = some 1 ∧
    (Connection.on_timer cexC1 100).map (fun r => r.1.closed_at) = some (some 2) := by
  refine ⟨rfl, by with_unfolding_all decide⟩

/-- Claim C1 witness: the amended statement applied at the retransmission
tick on `cexC1` (the tick succeeds, and the resulting `closed_at` is one
of the two values the amended claim allows). -/
theorem c1_closed_at_transitions_witness :
    cexC1.closed_at = some 1 ∧
    (Connection.on_timer cexC1 100).map
      (fun r => decide (r.1.closed_at = some 1) ||
                decide (r.1.closed_at =
                  some (wadd cexC1.send.nxt (cexC1.unacked.length % 2^32)))) =
      some true := by
  refine ⟨rfl, ?_⟩
  have hsome : (Connection.on_timer cexC1 100).isSome = true := by
    with_unfolding_all decide
  obtain ⟨r, hr⟩ := Option.isSome_iff_exists.mp hsome
  rw [hr]
  have hth := c1_closed_at_transitions.2.2.2 cexC1 100 1 r rfl hr
  rcases hth with h | h <;> simp [h]
